import Mathlib

/-!
Verification development for the LaunchDarkly rust-server-sdk repository.

The development shallowly embeds, in Lean 4:
  - the migration-operation command layer of contract-tests/src/client_entity.rs
    (ClientEntity::do_command and ClientEntity::new);
  - the data-source builders of launchdarkly-server-sdk/src/data_source_builders.rs;
  - the EventsConfiguration record of launchdarkly-server-sdk/src/events/mod.rs;
  - the Migrator execution engine, the Summarizer and the event-pipeline close
    lifecycle, which are part of the repository but whose source files are not
    available here; those are modelled from the specification and each such
    definition is marked `Modelled from the spec:` in its doc comment.

Rust machine types are embedded as follows: Duration as Nat (milliseconds),
usize as Nat, NonZeroUsize as PNat, String as String, Option as Option,
Result<T, E> as Except E T, f64 metric values as Rat (the embedded code never
computes on them, it only passes them through).
-/

/-! ## Migration data model -/

/-- The two migration origins: the old system and the new system. -/
inductive Origin where
  | old
  | new
deriving DecidableEq, Repr

/-- Modelled from the spec: the migration flag resolves to one of four
effective configurations, each fixing which origin(s) run and which is
authoritative: old-only; shadow (old authoritative, new shadowed);
live (new authoritative, old shadowed); new-only. -/
inductive MigrationStage where
  | oldOnly
  | shadow
  | live
  | newOnly
deriving DecidableEq, Repr

/-- Modelled from the spec: whether the old origin runs in the given stage. -/
def runsOld : MigrationStage → Bool
  | MigrationStage.newOnly => false
  | _ => true

/-- Modelled from the spec: whether the new origin runs in the given stage. -/
def runsNew : MigrationStage → Bool
  | MigrationStage.oldOnly => false
  | _ => true

/-- Modelled from the spec: both origins run in the shadow and live stages. -/
def bothRun (s : MigrationStage) : Bool :=
  runsOld s && runsNew s

/-- Modelled from the spec: the authoritative origin of each stage. -/
def authoritative : MigrationStage → Origin
  | MigrationStage.oldOnly => Origin.old
  | MigrationStage.shadow => Origin.old
  | MigrationStage.live => Origin.new
  | MigrationStage.newOnly => Origin.new

/-- Modelled from the spec: the shadow origin of a stage, when both origins
run; the origin invoked for telemetry only. -/
def shadowOrigin : MigrationStage → Option Origin
  | MigrationStage.shadow => some Origin.new
  | MigrationStage.live => some Origin.old
  | _ => none

/-- Modelled from the spec: the list of origins a stage runs. -/
def originsRun (s : MigrationStage) : List Origin :=
  (if runsOld s then [Origin.old] else []) ++ (if runsNew s then [Origin.new] else [])

/-- Decidable equality for Except, needed so the migration result records
below support decidable equality. -/
instance {ε α : Type} [DecidableEq ε] [DecidableEq α] : DecidableEq (Except ε α) := by
  intro a b
  cases a <;> cases b <;> simp [Except.ok.injEq, Except.error.injEq] <;> infer_instance

/-- An origin function, as wired by the command layer around send_payload:
it maps the optional request payload to Ok(Some body) or Err(message). -/
abbrev OriginFn := Option String → Except String (Option String)

/-- Select the origin function belonging to an origin. -/
def originFn (o : Origin) (oldFn newFn : OriginFn) : OriginFn :=
  match o with
  | Origin.old => oldFn
  | Origin.new => newFn

/-- Modelled from the spec: a migration read returns one Result plus metadata
(origins run, consistency verdict); latency metadata is real time and is not
embedded. -/
structure MigrationReadResult where
  result : Except String (Option String)
  consistency : Option Bool
  origins : List Origin
deriving DecidableEq, Repr

/-- Modelled from the spec: the per-origin outcome inside a write result. -/
structure MigrationOriginResult where
  origin : Origin
  result : Except String (Option String)
deriving DecidableEq, Repr

/-- Modelled from the spec: a migration write result is per-origin, with the
result of the authoritative origin surfaced to the caller. -/
structure MigrationWriteResult where
  authoritative : MigrationOriginResult
  nonauthoritative : Option MigrationOriginResult
deriving DecidableEq, Repr

/-- Modelled from the spec: Migrator read. Every origin the stage runs is
invoked; if a comparator is supplied and both origins succeeded, the two
payloads are compared and a boolean consistency verdict recorded, omitted
if either origin failed; the Result of the authoritative origin is the
caller-visible outcome. The serial/parallel execution order of the two
reads does not affect the returned value and is not embedded. -/
def migratorRead (stage : MigrationStage) (oldFn newFn : OriginFn)
    (comparator : Option (Option String → Option String → Bool))
    (payload : Option String) : MigrationReadResult :=
  let oldR : Option (Except String (Option String)) :=
    if runsOld stage then some (oldFn payload) else none
  let newR : Option (Except String (Option String)) :=
    if runsNew stage then some (newFn payload) else none
  let verdict : Option Bool :=
    match comparator, oldR, newR with
    | some c, some (Except.ok a), some (Except.ok b) => some (c a b)
    | _, _, _ => none
  { result := originFn (authoritative stage) oldFn newFn payload
    consistency := verdict
    origins := originsRun stage }

/-- Modelled from the spec: Migrator write. Writes are never parallel: the
authoritative write executes, and the shadow write is attempted only if the
authoritative write succeeded (in the both-run stage with the old origin
authoritative these rules coincide with old-first execution). The second
component is the invocation trace, in execution order. -/
def migratorWrite (stage : MigrationStage) (oldFn newFn : OriginFn)
    (payload : Option String) : MigrationWriteResult × List Origin :=
  let auth := authoritative stage
  let authR := originFn auth oldFn newFn payload
  match shadowOrigin stage with
  | none =>
      ({ authoritative := { origin := auth, result := authR }
         nonauthoritative := none }, [auth])
  | some sh =>
      match authR with
      | Except.ok v =>
          let shR := originFn sh oldFn newFn payload
          ({ authoritative := { origin := auth, result := Except.ok v }
             nonauthoritative := some { origin := sh, result := shR } },
           [auth, sh])
      | Except.error e =>
          ({ authoritative := { origin := auth, result := Except.error e }
             nonauthoritative := none }, [auth])

/-! ## Command layer (client_entity.rs, migrationOperation) -/

/-- The comparator the command layer supplies to MigratorBuilder.read: when
track_consistency is set it is the closure comparing the two payloads for
equality, otherwise no comparator is supplied. -/
def chooseComparator (track_consistency : Bool) :
    Option (Option String → Option String → Bool) :=
  if track_consistency then some (fun lhs rhs => lhs == rhs) else none

/-- The migrationOperation response payload for a Read command: the payload
on Ok (defaulting to "success" when the Ok carries no body), the error
string on Err; computed from result.result. -/
def migrationReadResponse (r : MigrationReadResult) : String :=
  match r.result with
  | Except.ok payload => payload.getD "success"
  | Except.error e => e

/-- The migrationOperation response payload for a Write command: the payload
on Ok (defaulting to "success"), the error string on Err; computed from
result.authoritative.result. -/
def migrationWriteResponse (r : MigrationWriteResult) : String :=
  match r.authoritative.result with
  | Except.ok payload => payload.getD "success"
  | Except.error e => e

/-- Abbreviation for the response of a full read call through the command
layer: Migrator read followed by the Read response extraction. -/
def migrationOperationRead (stage : MigrationStage) (oldFn newFn : OriginFn)
    (track_consistency : Bool) (payload : Option String) : String :=
  migrationReadResponse
    (migratorRead stage oldFn newFn (chooseComparator track_consistency) payload)

/-- Abbreviation for the response of a full write call through the command
layer: Migrator write followed by the Write response extraction. -/
def migrationOperationWrite (stage : MigrationStage) (oldFn newFn : OriginFn)
    (payload : Option String) : String :=
  migrationWriteResponse (migratorWrite stage oldFn newFn payload).1

/-! ## Data source builders (data_source_builders.rs) -/

/-- The build error type of the data source builders: a single InvalidConfig
variant carrying a message. -/
inductive BuildError where
  | invalidConfig (msg : String)
deriving DecidableEq, Repr

/-- Tag distinguishing the kinds of data source a factory can build. -/
inductive DataSourceKind where
  | streaming
  | polling
  | null
deriving DecidableEq, Repr

/-- DEFAULT_INITIAL_RECONNECT_DELAY, in milliseconds (one second). -/
def DEFAULT_INITIAL_RECONNECT_DELAY : Nat := 1000

/-- MINIMUM_POLL_INTERVAL, in milliseconds (thirty seconds). -/
def MINIMUM_POLL_INTERVAL : Nat := 30000

/-- StreamingDataSourceBuilder: initial reconnect delay (milliseconds) and an
optional HTTPS connector of type C. -/
structure StreamingDataSourceBuilder (C : Type) where
  initial_reconnect_delay : Nat
  connector : Option C
deriving DecidableEq, Repr

/-- StreamingDataSourceBuilder::new with default values. -/
def StreamingDataSourceBuilder.new (C : Type) : StreamingDataSourceBuilder C :=
  { initial_reconnect_delay := DEFAULT_INITIAL_RECONNECT_DELAY, connector := none }

/-- StreamingDataSourceBuilder::initial_reconnect_delay: stores the given
duration unclamped. -/
def StreamingDataSourceBuilder.setInitialReconnectDelay {C : Type}
    (b : StreamingDataSourceBuilder C) (duration : Nat) : StreamingDataSourceBuilder C :=
  { b with initial_reconnect_delay := duration }

/-- StreamingDataSourceBuilder::https_connector: stores the connector. -/
def StreamingDataSourceBuilder.setHttpsConnector {C : Type}
    (b : StreamingDataSourceBuilder C) (connector : C) : StreamingDataSourceBuilder C :=
  { b with connector := some connector }

/-- StreamingDataSourceBuilder::build. The rustls cfg feature is a compile
time parameter; the outcome of StreamingDataSource::new (whose source is not
available here) is abstracted by streamUrlOk, whether the configured
streaming base URL is valid. With no connector and rustls disabled, build
fails with InvalidConfig; otherwise an invalid streaming URL fails with
InvalidConfig; else the streaming data source is built. -/
def StreamingDataSourceBuilder.build {C : Type} (b : StreamingDataSourceBuilder C)
    (rustlsEnabled : Bool) (streamUrlOk : Bool) : Except BuildError DataSourceKind :=
  let connectorStep : Except BuildError Unit :=
    match b.connector with
    | none =>
        if rustlsEnabled then Except.ok ()
        else Except.error
          (BuildError.invalidConfig "https connector required when rustls is disabled")
    | some _ => Except.ok ()
  match connectorStep with
  | Except.error e => Except.error e
  | Except.ok () =>
      if streamUrlOk then Except.ok DataSourceKind.streaming
      else Except.error (BuildError.invalidConfig "invalid stream_base_url")

/-- NullDataSourceBuilder has no configuration. -/
structure NullDataSourceBuilder where
deriving DecidableEq, Repr

/-- NullDataSourceBuilder::build always succeeds. -/
def NullDataSourceBuilder.build (_ : NullDataSourceBuilder) :
    Except BuildError DataSourceKind :=
  Except.ok DataSourceKind.null

/-- PollingDataSourceBuilder: poll interval (milliseconds) and an optional
HTTPS connector of type C. -/
structure PollingDataSourceBuilder (C : Type) where
  poll_interval : Nat
  connector : Option C
deriving DecidableEq, Repr

/-- PollingDataSourceBuilder::new with default values: the poll interval
starts at the thirty-second minimum. -/
def PollingDataSourceBuilder.new (C : Type) : PollingDataSourceBuilder C :=
  { poll_interval := MINIMUM_POLL_INTERVAL, connector := none }

/-- PollingDataSourceBuilder::poll_interval: stores
max(poll_interval, MINIMUM_POLL_INTERVAL). -/
def PollingDataSourceBuilder.setPollInterval {C : Type}
    (b : PollingDataSourceBuilder C) (poll_interval : Nat) : PollingDataSourceBuilder C :=
  { b with poll_interval := max poll_interval MINIMUM_POLL_INTERVAL }

/-- PollingDataSourceBuilder::https_connector: stores the connector. -/
def PollingDataSourceBuilder.setHttpsConnector {C : Type}
    (b : PollingDataSourceBuilder C) (connector : C) : PollingDataSourceBuilder C :=
  { b with connector := some connector }

/-- PollingDataSourceBuilder::build. With no connector and rustls disabled,
build fails with InvalidConfig; otherwise the feature requester is built and
PollingDataSource::new always succeeds. -/
def PollingDataSourceBuilder.build {C : Type} (b : PollingDataSourceBuilder C)
    (rustlsEnabled : Bool) : Except BuildError DataSourceKind :=
  let connectorStep : Except BuildError Unit :=
    match b.connector with
    | none =>
        if rustlsEnabled then Except.ok ()
        else Except.error
          (BuildError.invalidConfig "https connector required when rustls is disabled")
    | some _ => Except.ok ()
  match connectorStep with
  | Except.error e => Except.error e
  | Except.ok () => Except.ok DataSourceKind.polling

/-- One mutating call on the polling builder, for reasoning about arbitrary
sequences of builder calls. -/
inductive PollingBuilderCall (C : Type) where
  | pollInterval (d : Nat)
  | httpsConnector (c : C)

/-- Apply a sequence of polling builder calls, left to right. -/
def applyPollingCalls {C : Type} (calls : List (PollingBuilderCall C))
    (b : PollingDataSourceBuilder C) : PollingDataSourceBuilder C :=
  match calls with
  | [] => b
  | PollingBuilderCall.pollInterval d :: rest =>
      applyPollingCalls rest (b.setPollInterval d)
  | PollingBuilderCall.httpsConnector c :: rest =>
      applyPollingCalls rest (b.setHttpsConnector c)

/-! ## Custom event dispatch (client_entity.rs, customEvent) -/

/-- A minimal JSON value, standing for serde_json::Value; the dispatch logic
only ever constructs Null as a default and passes values through. -/
inductive JsonValue where
  | null
  | bool (b : Bool)
  | num (n : Int)
  | str (s : String)
deriving DecidableEq, Repr

/-- The customEvent command parameters: a context (opaque type Ctx), the
event key, optional data and optional metric value. -/
structure CustomEventParams (Ctx : Type) where
  context : Ctx
  event_key : String
  data : Option JsonValue
  metric_value : Option Rat
deriving DecidableEq, Repr

/-- The client tracking call a customEvent command results in. -/
inductive TrackCall (Ctx : Type) where
  | track_metric (context : Ctx) (key : String) (mv : Rat) (data : JsonValue)
  | track_data (context : Ctx) (key : String) (data : JsonValue)
  | track_event (context : Ctx) (key : String)
deriving DecidableEq, Repr

/-- The customEvent arm of ClientEntity::do_command: Some(mv) dispatches to
track_metric with the data defaulting to JSON null; None with data present
dispatches to track_data; None otherwise dispatches to track_event. -/
def customEventDispatch {Ctx : Type} (p : CustomEventParams Ctx) : TrackCall Ctx :=
  match p.metric_value with
  | some mv =>
      TrackCall.track_metric p.context p.event_key mv (p.data.getD JsonValue.null)
  | none =>
      if p.data.isSome then
        TrackCall.track_data p.context p.event_key (p.data.getD JsonValue.null)
      else
        TrackCall.track_event p.context p.event_key

/-! ## Data source selection (client_entity.rs, ClientEntity::new) -/

/-- The streaming block of the create-instance configuration. -/
structure StreamingParams where
  base_uri : Option String
  initial_retry_delay_ms : Option Nat
deriving DecidableEq, Repr

/-- The polling block of the create-instance configuration. -/
structure PollingParams where
  base_uri : Option String
  poll_interval_ms : Option Nat
deriving DecidableEq, Repr

/-- The data source builder ClientEntity::new hands to the config builder. -/
inductive DataSourceSelection (C : Type) where
  | streamingSource (b : StreamingDataSourceBuilder C)
  | pollingSource (b : PollingDataSourceBuilder C)
deriving DecidableEq, Repr

/-- The data-source selection logic of ClientEntity::new: a streaming block
wins and configures a streaming builder; otherwise a polling block
configures a polling builder; with neither, a default streaming builder is
used. In every branch the shared HTTPS connector is set. -/
def selectDataSource {C : Type} (connector : C)
    (streaming : Option StreamingParams) (polling : Option PollingParams) :
    DataSourceSelection C :=
  match streaming with
  | some sp =>
      let b := StreamingDataSourceBuilder.new C
      let b :=
        match sp.initial_retry_delay_ms with
        | some delay => b.setInitialReconnectDelay delay
        | none => b
      DataSourceSelection.streamingSource (b.setHttpsConnector connector)
  | none =>
      match polling with
      | some pp =>
          let b := PollingDataSourceBuilder.new C
          let b :=
            match pp.poll_interval_ms with
            | some delay => b.setPollInterval delay
            | none => b
          DataSourceSelection.pollingSource (b.setHttpsConnector connector)
      | none =>
          DataSourceSelection.streamingSource
            ((StreamingDataSourceBuilder.new C).setHttpsConnector connector)

/-- Whether a selection is a polling data source. -/
def DataSourceSelection.isPolling {C : Type} : DataSourceSelection C → Bool
  | DataSourceSelection.pollingSource _ => true
  | DataSourceSelection.streamingSource _ => false

/-! ## EventsConfiguration (events/mod.rs) -/

/-- EventsConfiguration, field for field from events/mod.rs. The two trait
object fields keep only their identity: the sender handle (Arc dyn
EventSender) has opaque type S and the success callback (Arc dyn Fn) has
opaque type K. Durations are milliseconds, NonZeroUsize is PNat, the
HashSet of attribute References is a list of reference strings. -/
structure EventsConfiguration (S K : Type) where
  capacity : Nat
  event_sender : S
  flush_interval : Nat
  context_keys_capacity : PNat
  context_keys_flush_interval : Nat
  all_attributes_private : Bool
  private_attributes : List String
  omit_anonymous_contexts : Bool
  on_success : K

/-- The field names of EventsConfiguration, in declaration order, transcribed
from the struct in events/mod.rs. -/
def eventsConfigurationFields : List String :=
  ["capacity", "event_sender", "flush_interval", "context_keys_capacity",
   "context_keys_flush_interval", "all_attributes_private",
   "private_attributes", "omit_anonymous_contexts", "on_success"]

/-- The settings the spec lists for EventsConfiguration, in the spec order:
capacity, flush_interval, context_keys_capacity, context_keys_flush_interval,
all_attributes_private, named private attribute references,
omit_anonymous_contexts, success callback. This definition follows the spec
wording, for comparison with eventsConfigurationFields. -/
def specEventsConfigurationSettings : List String :=
  ["capacity", "flush_interval", "context_keys_capacity",
   "context_keys_flush_interval", "all_attributes_private",
   "private_attributes", "omit_anonymous_contexts", "on_success"]

/-! ## Event pipeline lifecycle -/

/-- Modelled from the spec: the observable state of the Dispatcher/Processor
pipeline — the fixed configuration, the buffered OutputEvents (of opaque
type E), the batches handed to the Sender in order, a drop counter for
overflow, and the closed flag. -/
structure PipelineState (S K E : Type) where
  config : EventsConfiguration S K
  buffer : List E
  sent : List (List E)
  dropped : Nat
  closed : Bool

/-- Modelled from the spec: Dispatcher submit — never blocks; after close it
is a no-op; on a full buffer the event is dropped and counted rather than
blocking the producer. -/
def pipelineSubmit {S K E : Type} (e : E) (s : PipelineState S K E) :
    PipelineState S K E :=
  if s.closed then s
  else if s.buffer.length < s.config.capacity then
    { s with buffer := s.buffer ++ [e] }
  else
    { s with dropped := s.dropped + 1 }

/-- Modelled from the spec: a flush — takes ownership of the queued events
and hands them to the Sender as one batch; an empty window yields no batch;
after close it is a no-op. -/
def pipelineFlush {S K E : Type} (s : PipelineState S K E) :
    PipelineState S K E :=
  if s.closed then s
  else if s.buffer.isEmpty then s
  else { s with buffer := [], sent := s.sent ++ [s.buffer] }

/-- Modelled from the spec: close — drains pending work with one final
flush, stops background activity (the closed flag), and is idempotent: a
second close finds the closed flag set and performs no additional work.
It is a total function, so it never panics. -/
def pipelineClose {S K E : Type} (s : PipelineState S K E) :
    PipelineState S K E :=
  if s.closed then s
  else { pipelineFlush s with closed := true }

/-! ## Summarizer -/

/-- A counter key: (flagKey, variationIndex or none, isDefault), as in the
Counters mapping of the spec data model. -/
abbrev CounterKey := String × Option Nat × Bool

/-- Modelled from the spec: a counter value — count, flag value, flag
version. -/
structure SummaryCounter where
  count : Nat
  value : JsonValue
  version : Option Nat
deriving DecidableEq, Repr

/-- Modelled from the spec: the Summarizer state — the Counters mapping as
an association list, plus the summary window bounds as the least and
greatest timestamps seen (none while the window is empty). -/
structure SummarizerState where
  counters : List (CounterKey × SummaryCounter)
  start_date : Option Nat
  end_date : Option Nat
deriving DecidableEq, Repr

/-- The empty Summarizer: no counters, an empty window. -/
def emptySummarizer : SummarizerState :=
  { counters := [], start_date := none, end_date := none }

/-- Modelled from the spec: increment the matching counter in the Counters
mapping, creating it at count=1 if absent. -/
def bumpCounter (k : CounterKey) (value : JsonValue) (version : Option Nat) :
    List (CounterKey × SummaryCounter) → List (CounterKey × SummaryCounter)
  | [] => [(k, { count := 1, value := value, version := version })]
  | (k2, c) :: rest =>
      if k = k2 then (k2, { c with count := c.count + 1 }) :: rest
      else (k2, c) :: bumpCounter k value version rest

/-- Modelled from the spec: accumulate(flagKey, variationIndex, value,
default, version) at a timestamp — increments the matching counter, creating
it at count=1 if absent, and widens the summary window to cover the
timestamp. -/
def accumulate (k : CounterKey) (value : JsonValue) (version : Option Nat)
    (timestamp : Nat) (s : SummarizerState) : SummarizerState :=
  { counters := bumpCounter k value version s.counters
    start_date :=
      some (match s.start_date with
            | none => timestamp
            | some d => min d timestamp)
    end_date :=
      some (match s.end_date with
            | none => timestamp
            | some d => max d timestamp) }

/-- The count recorded for a key, zero when the key is absent. -/
def countOf (k : CounterKey) (s : SummarizerState) : Nat :=
  match s.counters.lookup k with
  | some c => c.count
  | none => 0

/-- Fold a list of timestamped accumulate calls for one key over a state. -/
def accumulateAll (k : CounterKey) (value : JsonValue) (version : Option Nat)
    (timestamps : List Nat) (s : SummarizerState) : SummarizerState :=
  match timestamps with
  | [] => s
  | t :: rest => accumulateAll k value version rest (accumulate k value version t s)

/-! ## Helper lemmas -/

/-- The response extraction applied to a bare origin Result: payload on Ok
(defaulting to "success"), error string on Err. -/
def responseOf : Except String (Option String) → String
  | Except.ok payload => payload.getD "success"
  | Except.error e => e

theorem migratorWrite_auth_result (stage : MigrationStage) (oldFn newFn : OriginFn)
    (payload : Option String) :
    (migratorWrite stage oldFn newFn payload).1.authoritative.result
      = originFn (authoritative stage) oldFn newFn payload := by
  cases stage
  · rfl
  · cases h : oldFn payload <;>
      simp [migratorWrite, shadowOrigin, authoritative, originFn, h]
  · cases h : newFn payload <;>
      simp [migratorWrite, shadowOrigin, authoritative, originFn, h]
  · rfl

theorem migrationReadResponse_eq (r : MigrationReadResult) :
    migrationReadResponse r = responseOf r.result := by
  cases h : r.result <;> simp [migrationReadResponse, responseOf, h]

theorem migrationWriteResponse_eq (r : MigrationWriteResult) :
    migrationWriteResponse r = responseOf r.authoritative.result := by
  cases h : r.authoritative.result <;> simp [migrationWriteResponse, responseOf, h]

/-! ## Claim theorems -/

/-- Claim C1: for every migration operation the caller-visible outcome is the
Result of the authoritative origin. A read call returns one Result, equal to
that of the authoritative origin; a write call surfaces the per-origin result
of the authoritative origin; the command layer computes the
migrationOperation response payload from result.result for Read and
result.authoritative.result for Write, payload on Ok and error string on
Err. Both response values are a function of the authoritative origin call
alone, so a shadow-origin failure
is never the value surfaced. -/
theorem migration_caller_visible_outcome_is_authoritative
    (stage : MigrationStage) (oldFn newFn : OriginFn)
    (track_consistency : Bool) (payload : Option String) :
    (migratorRead stage oldFn newFn (chooseComparator track_consistency) payload).result
      = originFn (authoritative stage) oldFn newFn payload
    ∧ (migratorWrite stage oldFn newFn payload).1.authoritative.result
      = originFn (authoritative stage) oldFn newFn payload
    ∧ migrationOperationRead stage oldFn newFn track_consistency payload
      = responseOf (originFn (authoritative stage) oldFn newFn payload)
    ∧ migrationOperationWrite stage oldFn newFn payload
      = responseOf (originFn (authoritative stage) oldFn newFn payload) := by
  refine ⟨rfl, migratorWrite_auth_result stage oldFn newFn payload, ?_, ?_⟩
  · rw [migrationOperationRead, migrationReadResponse_eq]
    rfl
  · rw [migrationOperationWrite, migrationWriteResponse_eq,
      migratorWrite_auth_result]

/-- Claim C2: for a migration write in a stage where both origins run with
the old origin authoritative, the old origin executes first (writes are
never parallel), the new (shadow) origin is invoked exactly when the old
write succeeded, and when the old write fails the new origin is not invoked
at all and the returned Write result reflects the old failure. -/
theorem migration_write_old_first_shadow_gated
    (stage : MigrationStage) (oldFn newFn : OriginFn) (payload : Option String)
    (hboth : bothRun stage = true) (hauth : authoritative stage = Origin.old) :
    (migratorWrite stage oldFn newFn payload).2.head? = some Origin.old
    ∧ (Origin.new ∈ (migratorWrite stage oldFn newFn payload).2
        ↔ ∃ v, oldFn payload = Except.ok v)
    ∧ ∀ e, oldFn payload = Except.error e →
        (migratorWrite stage oldFn newFn payload).2 = [Origin.old]
        ∧ (migratorWrite stage oldFn newFn payload).1.authoritative.result
            = Except.error e
        ∧ (migratorWrite stage oldFn newFn payload).1.nonauthoritative = none := by
  cases stage
  · exact absurd hboth (by decide)
  · cases h : oldFn payload with
    | ok v =>
        refine ⟨?_, ?_, ?_⟩
        · simp [migratorWrite, shadowOrigin, authoritative, originFn, h]
        · simp [migratorWrite, shadowOrigin, authoritative, originFn, h]
        · intro e he
          exact absurd he (by simp)
    | error e0 =>
        refine ⟨?_, ?_, ?_⟩
        · simp [migratorWrite, shadowOrigin, authoritative, originFn, h]
        · simp [migratorWrite, shadowOrigin, authoritative, originFn, h]
        · intro e he
          injection he with h2
          subst h2
          simp [migratorWrite, shadowOrigin, authoritative, originFn, h]
  · exact absurd hauth (by decide)
  · exact absurd hboth (by decide)

/-- Witness for C2 at a concrete input: in the shadow stage with a failing
old write, the trace is exactly the old origin, the surfaced result is the
old failure, and no nonauthoritative result is recorded. -/
theorem migration_write_old_first_shadow_gated_witness :
    (migratorWrite MigrationStage.shadow (fun _ => Except.error "boom")
        (fun _ => Except.ok (some "B")) none).2 = [Origin.old]
    ∧ (migratorWrite MigrationStage.shadow (fun _ => Except.error "boom")
        (fun _ => Except.ok (some "B")) none).1.authoritative.result
        = Except.error "boom"
    ∧ (migratorWrite MigrationStage.shadow (fun _ => Except.error "boom")
        (fun _ => Except.ok (some "B")) none).1.nonauthoritative = none :=
  (migration_write_old_first_shadow_gated MigrationStage.shadow
      (fun _ => Except.error "boom") (fun _ => Except.ok (some "B")) none
      rfl rfl).2.2 "boom" rfl

/-- Claim C3: with a comparator supplied (track_consistency true), if both
origins of a both-run stage succeed, the recorded consistency verdict is the
boolean result of comparing the two payloads — true exactly when they are
equal — and the verdict is omitted (not recorded as false) whenever either
origin fails; with track_consistency false no comparator is supplied and no
verdict is recorded. -/
theorem migration_read_consistency_verdict
    (stage : MigrationStage) (oldFn newFn : OriginFn) (payload : Option String)
    (hboth : bothRun stage = true) :
    (∀ a b, oldFn payload = Except.ok a → newFn payload = Except.ok b →
      (migratorRead stage oldFn newFn (chooseComparator true) payload).consistency
          = some (a == b)
        ∧ ((a == b) = true ↔ a = b))
    ∧ ((∃ e, oldFn payload = Except.error e) ∨ (∃ e, newFn payload = Except.error e) →
      (migratorRead stage oldFn newFn (chooseComparator true) payload).consistency
        = none)
    ∧ (migratorRead stage oldFn newFn (chooseComparator false) payload).consistency
        = none
    ∧ chooseComparator false = none := by
  have hold : runsOld stage = true := by
    cases stage <;> simp_all [bothRun, runsOld, runsNew]
  have hnew : runsNew stage = true := by
    cases stage <;> simp_all [bothRun, runsOld, runsNew]
  refine ⟨?_, ?_, ?_, rfl⟩
  · intro a b ha hb
    constructor
    · simp [migratorRead, chooseComparator, hold, hnew, ha, hb]
    · exact beq_iff_eq
  · rintro (⟨e, he⟩ | ⟨e, he⟩)
    · cases hb : newFn payload <;>
        simp [migratorRead, chooseComparator, hold, hnew, he, hb]
    · cases ha : oldFn payload <;>
        simp [migratorRead, chooseComparator, hold, hnew, he, ha]
  · cases ha : oldFn payload <;> cases hb : newFn payload <;>
      simp [migratorRead, chooseComparator, hold, hnew, ha, hb]

/-- Witness for C3 at a concrete input: in the shadow stage with both origins
returning the payload "A", the verdict is the comparison of the two equal
payloads, and that comparison is true exactly on equality. -/
theorem migration_read_consistency_verdict_witness :
    (migratorRead MigrationStage.shadow (fun _ => Except.ok (some "A"))
        (fun _ => Except.ok (some "A")) (chooseComparator true) none).consistency
      = some (some "A" == some "A")
    ∧ ((some "A" == some "A") = true ↔ some "A" = some "A") :=
  (migration_read_consistency_verdict MigrationStage.shadow
      (fun _ => Except.ok (some "A")) (fun _ => Except.ok (some "A")) none
      rfl).1 (some "A") (some "A") rfl rfl

/-- Claim C4: invalid build-time configuration is a build failure, not a
panic (every build function below is total): StreamingDataSourceBuilder
build returns InvalidConfig when no HTTPS connector is supplied and the
rustls feature is disabled, or when the streaming base URL is invalid;
PollingDataSourceBuilder build returns InvalidConfig without a connector
when rustls is disabled; NullDataSourceBuilder build always returns Ok. -/
theorem data_source_build_invalid_config {C : Type}
    (b : StreamingDataSourceBuilder C) (pb : PollingDataSourceBuilder C)
    (nb : NullDataSourceBuilder) (streamUrlOk : Bool) :
    (b.connector = none →
      ∃ msg, b.build false streamUrlOk
        = Except.error (BuildError.invalidConfig msg))
    ∧ (∀ rustlsEnabled : Bool, streamUrlOk = false →
      ∃ msg, b.build rustlsEnabled streamUrlOk
        = Except.error (BuildError.invalidConfig msg))
    ∧ (pb.connector = none →
      ∃ msg, pb.build false = Except.error (BuildError.invalidConfig msg))
    ∧ nb.build = Except.ok DataSourceKind.null := by
  refine ⟨?_, ?_, ?_, rfl⟩
  · intro hc
    exact ⟨"https connector required when rustls is disabled",
      by simp [StreamingDataSourceBuilder.build, hc]⟩
  · intro rustlsEnabled hurl
    subst hurl
    cases hc : b.connector with
    | none =>
        cases rustlsEnabled with
        | false =>
            exact ⟨"https connector required when rustls is disabled",
              by simp [StreamingDataSourceBuilder.build, hc]⟩
        | true =>
            exact ⟨"invalid stream_base_url",
              by simp [StreamingDataSourceBuilder.build, hc]⟩
    | some c =>
        exact ⟨"invalid stream_base_url",
          by simp [StreamingDataSourceBuilder.build, hc]⟩
  · intro hc
    exact ⟨"https connector required when rustls is disabled",
      by simp [PollingDataSourceBuilder.build, hc]⟩

/-- Witness for C4 at a concrete input: the default builders carry no
connector, so with rustls disabled both streaming and polling builds fail
with InvalidConfig, and the null build succeeds. -/
theorem data_source_build_invalid_config_witness :
    (∃ msg, (StreamingDataSourceBuilder.new Unit).build false true
      = Except.error (BuildError.invalidConfig msg))
    ∧ (∃ msg, (PollingDataSourceBuilder.new Unit).build false
      = Except.error (BuildError.invalidConfig msg))
    ∧ NullDataSourceBuilder.build {} = Except.ok DataSourceKind.null :=
  ⟨(data_source_build_invalid_config (StreamingDataSourceBuilder.new Unit)
      (PollingDataSourceBuilder.new Unit) {} true).1 rfl,
   (data_source_build_invalid_config (StreamingDataSourceBuilder.new Unit)
      (PollingDataSourceBuilder.new Unit) {} true).2.2.1 rfl,
   (data_source_build_invalid_config (StreamingDataSourceBuilder.new Unit)
      (PollingDataSourceBuilder.new Unit) {} true).2.2.2⟩

/-- Lookup a counter key in the embedded SummarizerState counters (defined
here rather than through List.lookup so the key comparison matches the
propositional equality bumpCounter uses). -/
def lookupCounter (k : CounterKey) :
    List (CounterKey × SummaryCounter) → Option SummaryCounter
  | [] => none
  | (k2, c) :: rest => if k = k2 then some c else lookupCounter k rest

/-- The summary window of a state covers a timestamp. -/
def windowSpans (s : SummarizerState) (t : Nat) : Prop :=
  ∃ a b, s.start_date = some a ∧ s.end_date = some b ∧ a ≤ t ∧ t ≤ b

/-- The count recorded for a key via lookupCounter, zero when absent. -/
def keyCount (k : CounterKey) (s : SummarizerState) : Nat :=
  match lookupCounter k s.counters with
  | some c => c.count
  | none => 0

theorem lookupCounter_bumpCounter (k : CounterKey) (v : JsonValue)
    (ver : Option Nat) (l : List (CounterKey × SummaryCounter)) :
    lookupCounter k (bumpCounter k v ver l)
      = some (match lookupCounter k l with
              | some c => { c with count := c.count + 1 }
              | none => { count := 1, value := v, version := ver }) := by
  induction l with
  | nil => simp [bumpCounter, lookupCounter]
  | cons hd tl ih =>
      obtain ⟨k2, c⟩ := hd
      by_cases h : k = k2
      · simp [bumpCounter, lookupCounter, h]
      · simp [bumpCounter, lookupCounter, h, ih]

theorem keyCount_accumulate (k : CounterKey) (v : JsonValue) (ver : Option Nat)
    (t : Nat) (s : SummarizerState) :
    keyCount k (accumulate k v ver t s) = keyCount k s + 1 := by
  unfold keyCount accumulate
  rw [lookupCounter_bumpCounter]
  cases lookupCounter k s.counters <;> simp

theorem windowSpans_accumulate_self (k : CounterKey) (v : JsonValue)
    (ver : Option Nat) (t : Nat) (s : SummarizerState) :
    windowSpans (accumulate k v ver t s) t := by
  unfold windowSpans accumulate
  cases hs : s.start_date <;> cases he : s.end_date <;>
    refine ⟨_, _, rfl, rfl, ?_, ?_⟩ <;>
      simp [Nat.min_le_right, Nat.le_max_right, Nat.le_max_left, Nat.min_le_left]

theorem windowSpans_accumulate_mono (k : CounterKey) (v : JsonValue)
    (ver : Option Nat) (t2 t : Nat) (s : SummarizerState)
    (h : windowSpans s t) : windowSpans (accumulate k v ver t2 s) t := by
  obtain ⟨a, b, ha, hb, hat, htb⟩ := h
  refine ⟨min a t2, max b t2, ?_, ?_, ?_, ?_⟩
  · simp [accumulate, ha, Nat.min_comm]
  · simp [accumulate, hb, Nat.max_comm]
  · exact le_trans (Nat.min_le_left a t2) hat
  · exact le_trans htb (Nat.le_max_left b t2)

theorem keyCount_accumulateAll (k : CounterKey) (v : JsonValue)
    (ver : Option Nat) (ts : List Nat) (s : SummarizerState) :
    keyCount k (accumulateAll k v ver ts s) = keyCount k s + ts.length := by
  induction ts generalizing s with
  | nil => rfl
  | cons t rest ih =>
      rw [accumulateAll, ih, keyCount_accumulate, List.length_cons]
      omega

theorem windowSpans_accumulateAll_mono (k : CounterKey) (v : JsonValue)
    (ver : Option Nat) (ts : List Nat) (s : SummarizerState) (t : Nat)
    (h : windowSpans s t) : windowSpans (accumulateAll k v ver ts s) t := by
  induction ts generalizing s with
  | nil => exact h
  | cons t2 rest ih =>
      exact ih _ (windowSpans_accumulate_mono k v ver t2 t s h)

theorem windowSpans_accumulateAll (k : CounterKey) (v : JsonValue)
    (ver : Option Nat) (ts : List Nat) (s : SummarizerState) (t : Nat)
    (h : t ∈ ts) : windowSpans (accumulateAll k v ver ts s) t := by
  induction ts generalizing s with
  | nil => cases h
  | cons t2 rest ih =>
      rw [accumulateAll]
      rcases List.mem_cons.mp h with h2 | h2
      · subst h2
        exact windowSpans_accumulateAll_mono k v ver rest _ t
          (windowSpans_accumulate_self k v ver t s)
      · exact ih _ h2

/-- Claim C5: for N timestamped accumulate calls with the same
(flagKey, variationIndex, isDefault) key, N at least one, starting from the
empty Summarizer, the resulting counter count equals exactly N — the first
call creates the counter at count=1, each later call increments it — and
the summary window spans every recorded timestamp. -/
theorem summarizer_accumulate_count (k : CounterKey) (v : JsonValue)
    (ver : Option Nat) (ts : List Nat) (h : ts ≠ []) :
    keyCount k (accumulateAll k v ver ts emptySummarizer) = ts.length
    ∧ 1 ≤ keyCount k (accumulateAll k v ver ts emptySummarizer)
    ∧ ∀ t ∈ ts, windowSpans (accumulateAll k v ver ts emptySummarizer) t := by
  have hc : keyCount k (accumulateAll k v ver ts emptySummarizer) = ts.length := by
    rw [keyCount_accumulateAll]
    simp [keyCount, emptySummarizer, lookupCounter]
  refine ⟨hc, ?_, ?_⟩
  · rw [hc]
    exact List.length_pos.mpr h
  · intro t ht
    exact windowSpans_accumulateAll k v ver ts emptySummarizer t ht

/-- Witness for C5 at a concrete input: three accumulate calls on one key at
timestamps 5, 3, 9 yield a counter of exactly 3, and the window spans the
timestamp 9. -/
theorem summarizer_accumulate_count_witness :
    keyCount ("flag", some 1, false)
        (accumulateAll ("flag", some 1, false) (JsonValue.str "x") (some 2)
          [5, 3, 9] emptySummarizer)
      = [5, 3, 9].length
    ∧ windowSpans
        (accumulateAll ("flag", some 1, false) (JsonValue.str "x") (some 2)
          [5, 3, 9] emptySummarizer) 9 :=
  ⟨(summarizer_accumulate_count ("flag", some 1, false) (JsonValue.str "x")
      (some 2) [5, 3, 9] (by decide)).1,
   (summarizer_accumulate_count ("flag", some 1, false) (JsonValue.str "x")
      (some 2) [5, 3, 9] (by decide)).2.2 9 (by decide)⟩

theorem pipelineClose_closed {S K E : Type} (s : PipelineState S K E) :
    (pipelineClose s).closed = true := by
  unfold pipelineClose
  by_cases hc : s.closed = true <;> simp [hc]

theorem pipelineClose_of_closed {S K E : Type} (s : PipelineState S K E)
    (h : s.closed = true) : pipelineClose s = s := by
  unfold pipelineClose
  simp [h]

/-- Claim C6: close is idempotent — a second close after a first performs no
additional work, so the observable pipeline state after two closes equals
the state after one, and in particular the batches handed to the Sender are
identical (the final batch is never sent twice). Both facts are about the
total function pipelineClose, which never panics. -/
theorem pipeline_close_idempotent {S K E : Type} (s : PipelineState S K E) :
    pipelineClose (pipelineClose s) = pipelineClose s
    ∧ (pipelineClose (pipelineClose s)).sent = (pipelineClose s).sent := by
  have key : pipelineClose (pipelineClose s) = pipelineClose s :=
    pipelineClose_of_closed (pipelineClose s) (pipelineClose_closed s)
  exact ⟨key, by rw [key]⟩

theorem pipelineSubmit_config {S K E : Type} (e : E) (s : PipelineState S K E) :
    (pipelineSubmit e s).config = s.config := by
  unfold pipelineSubmit
  by_cases hc : s.closed = true <;>
    by_cases hb : s.buffer.length < s.config.capacity <;> simp [hc, hb]

theorem pipelineFlush_config {S K E : Type} (s : PipelineState S K E) :
    (pipelineFlush s).config = s.config := by
  unfold pipelineFlush
  by_cases hc : s.closed = true <;>
    by_cases hb : s.buffer.isEmpty = true <;> simp [hc, hb]

theorem pipelineClose_config {S K E : Type} (s : PipelineState S K E) :
    (pipelineClose s).config = s.config := by
  unfold pipelineClose
  by_cases hc : s.closed = true <;> simp [hc, pipelineFlush_config]

/-- Counterexample to claim C7 as stated: the EventsConfiguration struct does
not carry exactly the eight settings the spec lists — it additionally
carries the event_sender field, so the field inventory differs from the
spec list. -/
theorem events_configuration_extra_sender_field :
    "event_sender" ∈ eventsConfigurationFields
    ∧ "event_sender" ∉ specEventsConfigurationSettings
    ∧ eventsConfigurationFields ≠ specEventsConfigurationSettings := by
  refine ⟨?_, ?_, ?_⟩ <;> decide

/-- Claim C7 (amended): EventsConfiguration is an immutable record fixed at
construction carrying the eight settings the spec lists — capacity,
flush_interval, context_keys_capacity, context_keys_flush_interval,
all_attributes_private, the named private attribute references,
omit_anonymous_contexts, and the success callback — plus the event sender
handle, and no pipeline operation mutates any of its fields after
startup. -/
theorem events_configuration_settings_and_immutable :
    (∀ x ∈ specEventsConfigurationSettings, x ∈ eventsConfigurationFields)
    ∧ (∀ x ∈ eventsConfigurationFields,
        x ∈ specEventsConfigurationSettings ∨ x = "event_sender")
    ∧ ∀ (S K E : Type) (e : E) (s : PipelineState S K E),
        (pipelineSubmit e s).config = s.config
        ∧ (pipelineFlush s).config = s.config
        ∧ (pipelineClose s).config = s.config := by
  refine ⟨by decide, by decide, ?_⟩
  intro S K E e s
  exact ⟨pipelineSubmit_config e s, pipelineFlush_config s, pipelineClose_config s⟩

/-- A concrete pipeline state over Nat handles and Nat events, used by the
claim C7 witness. -/
def samplePipelineState : PipelineState Nat Nat Nat :=
  { config :=
      { capacity := 5
        event_sender := 0
        flush_interval := 100
        context_keys_capacity := 5
        context_keys_flush_interval := 100
        all_attributes_private := false
        private_attributes := []
        omit_anonymous_contexts := false
        on_success := 0 }
    buffer := [1, 2]
    sent := []
    dropped := 0
    closed := false }

/-- Witness for the amended C7 at a concrete input: capacity is among the
struct fields, and closing a concrete pipeline leaves its configuration
untouched. -/
theorem events_configuration_settings_and_immutable_witness :
    "capacity" ∈ eventsConfigurationFields
    ∧ (pipelineClose samplePipelineState).config = samplePipelineState.config :=
  ⟨events_configuration_settings_and_immutable.1 "capacity" (by decide),
   (events_configuration_settings_and_immutable.2.2 Nat Nat Nat 0
      samplePipelineState).2.2⟩

/-- Claim C8: the customEvent command dispatches on its optional arguments —
with a metric value present track_metric is called with the data defaulting
to JSON null; with no metric value but data present track_data is called;
with both absent track_event is called. The three guards are exhaustive and
mutually exclusive, so exactly one of the three calls is made in every
case. -/
theorem custom_event_dispatch_cases {Ctx : Type} (p : CustomEventParams Ctx) :
    (∀ mv, p.metric_value = some mv →
      customEventDispatch p
        = TrackCall.track_metric p.context p.event_key mv
            (p.data.getD JsonValue.null))
    ∧ (∀ d, p.metric_value = none → p.data = some d →
      customEventDispatch p = TrackCall.track_data p.context p.event_key d)
    ∧ (p.metric_value = none → p.data = none →
      customEventDispatch p = TrackCall.track_event p.context p.event_key)
    ∧ ((∃ mv, p.metric_value = some mv)
        ∨ (p.metric_value = none ∧ ∃ d, p.data = some d)
        ∨ (p.metric_value = none ∧ p.data = none)) := by
  refine ⟨?_, ?_, ?_, ?_⟩
  · intro mv hmv
    simp [customEventDispatch, hmv]
  · intro d hmv hd
    simp [customEventDispatch, hmv, hd]
  · intro hmv hd
    simp [customEventDispatch, hmv, hd]
  · cases hmv : p.metric_value with
    | some mv => exact Or.inl ⟨mv, rfl⟩
    | none =>
        cases hd : p.data with
        | some d => exact Or.inr (Or.inl ⟨rfl, d, rfl⟩)
        | none => exact Or.inr (Or.inr ⟨rfl, rfl⟩)

/-- Witness for C8 at a concrete input: a customEvent with metric value 9
and no data dispatches to track_metric with the data defaulted to JSON
null. -/
theorem custom_event_dispatch_cases_witness :
    customEventDispatch
        { context := "user-key", event_key := "purchase", data := none,
          metric_value := some (9 : Rat) }
      = TrackCall.track_metric "user-key" "purchase" (9 : Rat)
          ((none : Option JsonValue).getD JsonValue.null) :=
  (custom_event_dispatch_cases
      { context := "user-key", event_key := "purchase", data := none,
        metric_value := some (9 : Rat) }).1 (9 : Rat) rfl

theorem applyPollingCalls_min {C : Type} (calls : List (PollingBuilderCall C))
    (b : PollingDataSourceBuilder C)
    (h : MINIMUM_POLL_INTERVAL ≤ b.poll_interval) :
    MINIMUM_POLL_INTERVAL ≤ (applyPollingCalls calls b).poll_interval := by
  induction calls generalizing b with
  | nil => exact h
  | cons c rest ih =>
      cases c with
      | pollInterval d =>
          exact ih _ (Nat.le_max_right d MINIMUM_POLL_INTERVAL)
      | httpsConnector c2 => exact ih _ h

/-- Claim C9: the polling interval is always at least 30 seconds — new
initializes it to the 30-second minimum, poll_interval stores
max(d, 30 seconds), so no sequence of builder calls produces an interval
below 30 seconds — whereas the streaming initial_reconnect_delay setter
stores its argument unclamped. -/
theorem poll_interval_minimum {C : Type} :
    (PollingDataSourceBuilder.new C).poll_interval = MINIMUM_POLL_INTERVAL
    ∧ (∀ (b : PollingDataSourceBuilder C) (d : Nat),
        (b.setPollInterval d).poll_interval = max d MINIMUM_POLL_INTERVAL)
    ∧ (∀ calls : List (PollingBuilderCall C),
        MINIMUM_POLL_INTERVAL
          ≤ (applyPollingCalls calls (PollingDataSourceBuilder.new C)).poll_interval)
    ∧ ∀ (sb : StreamingDataSourceBuilder C) (d : Nat),
        (sb.setInitialReconnectDelay d).initial_reconnect_delay = d := by
  refine ⟨rfl, fun b d => rfl, ?_, fun sb d => rfl⟩
  intro calls
  exact applyPollingCalls_min calls (PollingDataSourceBuilder.new C) (Nat.le_refl _)

/-- Claim C10: the streaming data source takes precedence when a client
instance is created — with both streaming and polling parameters supplied
the polling parameters are ignored and a streaming source is built; with
neither, a default streaming source with the shared connector is used; a
polling source is built exactly when polling parameters are supplied
without streaming parameters. -/
theorem streaming_takes_precedence {C : Type} (connector : C)
    (sp : StreamingParams) (pp : PollingParams) :
    selectDataSource connector (some sp) (some pp)
      = selectDataSource connector (some sp) none
    ∧ (selectDataSource connector (some sp) (some pp)).isPolling = false
    ∧ selectDataSource connector none none
      = DataSourceSelection.streamingSource
          ((StreamingDataSourceBuilder.new C).setHttpsConnector connector)
    ∧ ∀ (st : Option StreamingParams) (po : Option PollingParams),
        (selectDataSource connector st po).isPolling = true
          ↔ st = none ∧ po.isSome = true := by
  refine ⟨rfl, ?_, rfl, ?_⟩
  · cases sp.initial_retry_delay_ms <;>
      simp [selectDataSource, DataSourceSelection.isPolling]
  · intro st po
    cases st with
    | some sp2 =>
        cases sp2.initial_retry_delay_ms <;>
          simp [selectDataSource, DataSourceSelection.isPolling]
    | none =>
        cases po with
        | some pp2 =>
            cases pp2.poll_interval_ms <;>
              simp [selectDataSource, DataSourceSelection.isPolling]
        | none => simp [selectDataSource, DataSourceSelection.isPolling]
